import Mathlib

/-!
Shallow embedding of `update_readme.py`, the script of this repository that
renders a Markdown status page of conda-forge badges for a curated list of
HEP tools.  Network effects are modelled by passing the outcome of each HTTP
interaction to the corresponding function as an explicit value; a Python
exception escaping a function is modelled by `Option`/`Except` failure.
-/

namespace UpdateReadme

/-- A pull-request object as returned by the GitHub API.  Only the `"draft"`
field is inspected by the script; `none` models a JSON object lacking the
field altogether, for which `pr.get("draft", False)` yields `False`. -/
structure PullRequest where
  draft : Option Bool

/-- Outcome of the HTTP interaction performed by `load_feedstock_outputs`.
The document maps an output name to the list of feedstocks owning it. -/
inductive OutputsFetch where
  | success (doc : List (String × List String))
  | netError (msg : String)
  | httpError (msg : String)
  | parseError (msg : String)

/-- Body of the `try:` block of `load_feedstock_outputs` (lines 15-18):
`requests.get`, `raise_for_status` and `response.json()`.  An `.error` value
is a raised exception. -/
def outputsRequest : OutputsFetch → Except String (List (String × List String))
  | .success doc => .ok doc
  | .netError e => .error e
  | .httpError e => .error e
  | .parseError e => .error e

/-- Function `load_feedstock_outputs` (lines 9-21): returns the parsed
document, and on any exception prints a diagnostic and returns the empty
mapping. -/
def load_feedstock_outputs (r : OutputsFetch) : List (String × List String) :=
  match outputsRequest r with
  | .ok doc => doc
  | .error _ => []

/-- Outcome of the HTTP GET performed by `get_open_prs_count`.  Constructors
`netError` and `httpError` are exceptions raised inside the `try:` block
(lines 36-38); `parseError` models `response.json()` failing on line 42,
which is outside the `try:` block. -/
inductive PullsFetch where
  | ok (pulls : List PullRequest)
  | netError (msg : String)
  | httpError (msg : String)
  | parseError (msg : String)

/-- Function `get_open_prs_count` (lines 24-45).  The value `.ok (.inl s)` is
the sentinel string returned when the request fails, `.ok (.inr n)` the count
of non-draft pull requests, and `.error e` an exception propagating out of
the function (only possible from `response.json()` on line 42, which sits
outside the `try:` block). -/
def get_open_prs_count (r : PullsFetch) : Except String (String ⊕ Nat) :=
  match r with
  | .netError _ => .ok (.inl "ERROR")
  | .httpError _ => .ok (.inl "ERROR")
  | .parseError e => .error e
  | .ok pulls => .ok (.inr (pulls.filter (fun pr => !(pr.draft.getD false))).length)

/-- Line 58: URL of the feedstock repository on GitHub. -/
def feedstock_url (feedstock_name : String) : String :=
  "https://github.com/conda-forge/" ++ feedstock_name ++ "-feedstock"

/-- Line 59: URL of the pull-request page of the feedstock repository. -/
def pr_page_url (feedstock_name : String) : String :=
  feedstock_url feedstock_name ++ "/pulls"

/-- Line 61: the PR count is hardcoded to `0`; the live call to
`get_open_prs_count` on line 60 is commented out. -/
def pr_count : Nat := 0

/-- Line 62: a count of zero renders as the empty string, a non-zero count as
a Markdown link to the pull-request page. -/
def pr_count_link (feedstock_name : String) : String :=
  if pr_count = 0 then "" else
    "[" ++ toString pr_count ++ "](" ++ pr_page_url feedstock_name ++ ")"

/-- Line 66: Anaconda page of an output. -/
def anaconda_url (output : String) : String :=
  "https://anaconda.org/conda-forge/" ++ output

/-- Shield image URL of the feedstock badge (line 68). -/
def feedstock_badge_img (output : String) : String :=
  "https://img.shields.io/badge/feedstock-" ++ output.replace "-" "--" ++ "-green.svg"

/-- Shield image URL of the recipe badge (line 69). -/
def recipe_badge_img (output : String) : String :=
  "https://img.shields.io/badge/recipe-" ++ output.replace "-" "--" ++ "-green.svg"

/-- Shield image URL of the downloads badge (line 70). -/
def downloads_badge_img (output : String) : String :=
  "https://img.shields.io/conda/dn/conda-forge/" ++ output ++ ".svg"

/-- Shield image URL of the version badge (line 71). -/
def version_badge_img (output : String) : String :=
  "https://img.shields.io/conda/vn/conda-forge/" ++ output ++ ".svg"

/-- Shield image URL of the platforms badge (line 72). -/
def platforms_badge_img (output : String) : String :=
  "https://img.shields.io/conda/pn/conda-forge/" ++ output ++ ".svg"

/-- Markdown badge: image `img` with alt text `alt`, hyperlinked to `link`. -/
def mdBadge (alt img link : String) : String :=
  "[![" ++ alt ++ "](" ++ img ++ ")](" ++ link ++ ")"

/-- Line 68: feedstock badge, linking to the feedstock repository. -/
def feedstock_badge (feedstock_name output : String) : String :=
  mdBadge "Conda Recipe" (feedstock_badge_img output) (feedstock_url feedstock_name)

/-- Line 69: recipe badge, linking to the feedstock repository. -/
def recipe_badge (feedstock_name output : String) : String :=
  mdBadge "Conda Recipe" (recipe_badge_img output) (feedstock_url feedstock_name)

/-- Line 70: downloads badge, linking to the Anaconda page of the output. -/
def downloads_badge (output : String) : String :=
  mdBadge "Conda Downloads" (downloads_badge_img output) (anaconda_url output)

/-- Line 71: version badge, linking to the Anaconda page of the output. -/
def version_badge (output : String) : String :=
  mdBadge "Conda Version" (version_badge_img output) (anaconda_url output)

/-- Line 72: platforms badge, linking to the Anaconda page of the output. -/
def platforms_badge (output : String) : String :=
  mdBadge "Conda Platforms" (platforms_badge_img output) (anaconda_url output)

/-- Line 74: the Markdown table row yielded for one output of a feedstock. -/
def toolRow (feedstock_name output : String) : String :=
  "| " ++ feedstock_badge feedstock_name output ++
  " | " ++ recipe_badge feedstock_name output ++
  " | " ++ downloads_badge output ++
  " | " ++ version_badge output ++
  " | " ++ platforms_badge output ++
  " | " ++ pr_count_link feedstock_name ++ " |"

/-- One step `by_feedstock[f].add(o)` of the inversion loop (line 99), on a
mapping in which `none` marks a key that was never inserted.  The set is
modelled as a duplicate-free list. -/
def addOutput (m : String → Option (List String)) (f o : String) :
    String → Option (List String) :=
  fun x =>
    if x = f then
      some (let cur := (m f).getD []
            if o ∈ cur then cur else cur ++ [o])
    else m x

/-- Lines 96-100 of `main`: inversion of the fetched output-to-feedstocks
document into the `FEEDSTOCK_OUTPUTS` mapping from feedstock to its set of
outputs.  A feedstock mapped to `none` is absent from the resulting dict, so
indexing it raises `KeyError`. -/
def buildByFeedstock (doc : List (String × List String)) :
    String → Option (List String) :=
  doc.foldl (fun m p => p.2.foldl (fun m f => addOutput m f p.1) m) (fun _ => none)

/-- Function `generate_tool_row` (lines 48-74), as the list of rows the
generator yields.  The value `none` models the `KeyError` raised by
`FEEDSTOCK_OUTPUTS[feedstock_name]` on line 64 when the feedstock is not a
key of the mapping `fo`. -/
def generate_tool_row (fo : String → Option (List String)) (feedstock_name : String) :
    Option (List String) :=
  match fo feedstock_name with
  | none => none
  | some outs =>
    some ((outs.mergeSort (fun a b => a ≤ b)).map (toolRow feedstock_name))

/-- Lines 83-87: header lines of a section table. -/
def sectionHeader (section_title : String) : List String :=
  ["### " ++ section_title,
   "",
   "| Feedstock | Output | Downloads | Version | Platforms | Open PRs |",
   "| --- | --- | --- | --- | --- | --- |"]

/-- The loop of lines 88-89: `lines.extend(generate_tool_row(tool))` for each
tool in turn; an exception from the generator propagates. -/
def extendRows (fo : String → Option (List String)) : List String → Option (List String)
  | [] => some []
  | t :: ts =>
    match generate_tool_row fo t with
    | none => none
    | some rows => (extendRows fo ts).map (fun rest => rows ++ rest)

/-- Function `process_tools_section` (lines 77-91). -/
def process_tools_section (fo : String → Option (List String))
    (section_title : String) (tools : List String) : Option (List String) :=
  (extendRows fo (tools.mergeSort (fun a b => a ≤ b))).map
    (fun body => sectionHeader section_title ++ body ++ [""])

/-- Value of one category of the local `feedstocks.json` config: a flat list
of tools, a nested mapping from subcategory to tools, or any other JSON shape
(line 124 logs and skips it). -/
inductive CategoryContent where
  | flat (tools : List String)
  | nested (sub : List (String × List String))
  | other (descr : String)

/-- The parsed local config: categories in insertion order. -/
abbrev Config := List (String × CategoryContent)

/-- The inner loop of lines 120-122: one section per subcategory. -/
def renderSubs (fo : String → Option (List String)) :
    List (String × List String) → Option (List String)
  | [] => some []
  | (name, tools) :: rest =>
    match process_tools_section fo name tools with
    | none => none
    | some s => (renderSubs fo rest).map (fun r => s ++ r)

/-- The loop of lines 117-124: one section per category (or per subcategory
of a nested category); an unexpected shape is logged and skipped. -/
def renderSections (fo : String → Option (List String)) :
    Config → Option (List String)
  | [] => some []
  | (name, .flat tools) :: rest =>
    match process_tools_section fo name tools with
    | none => none
    | some s => (renderSections fo rest).map (fun r => s ++ r)
  | (_, .nested sub) :: rest =>
    match renderSubs fo sub with
    | none => none
    | some s => (renderSections fo rest).map (fun r => s ++ r)
  | (_, .other _) :: rest => renderSections fo rest

/-- Lines 107-114: the fixed document header. -/
def headerLines : List String :=
  ["# HEP Packaging Coordination",
   "",
   "A community project working to get as many cross-platform builds of HEP tools on conda-forge as possible.",
   "",
   "## Tools distributed on conda-forge",
   ""]

/-- Lines 127-136: the fixed instructional footer. -/
def footerLines : List String :=
  ["## Adding new tools",
   "",
   "Contributions of new HEP tools are very welcome!",
   "",
   "To get a new tool listed:",
   "1. Package and distribute your tool on conda-forge.",
   "2. Open up an [Issue](https://github.com/hep-packaging-coordination/.github/issues) with title \"Add `<tool name>` to HEP Packaging Coordination\" with a link to the tool\x27s conda-forge feedstock.",
   ""]

/-- Line 140: the timestamp line, built from the formatted UTC clock value. -/
def timestampLine (now_utc : String) : String :=
  "Last updated: " ++ now_utc

/-- Lines 106-140 of `main`: the assembled list of document lines, given the
`FEEDSTOCK_OUTPUTS` mapping `fo`, the parsed config and the formatted clock
value.  `none` models an exception escaping the assembly. -/
def assembleLines (fo : String → Option (List String)) (data : Config)
    (now_utc : String) : Option (List String) :=
  (renderSections fo data).map
    (fun s => headerLines ++ s ++ footerLines ++ [timestampLine now_utc])

/-- The full pipeline of `main` up to the file write (line 146): fetch and
invert the outputs document, then assemble and join the lines. -/
def renderedDocument (r : OutputsFetch) (data : Config) (now_utc : String) :
    Option String :=
  (assembleLines (buildByFeedstock (load_feedstock_outputs r)) data now_utc).map
    (fun l => String.intercalate "\n" l)

/-- Predicate: `a` occurs as a contiguous substring of `b`. -/
def strInfix (a b : String) : Prop := ∃ p s : String, b = p ++ a ++ s

/-- The five shield image URLs emitted in the row for `output`. -/
def badge_img_urls (output : String) : List String :=
  [feedstock_badge_img output, recipe_badge_img output, downloads_badge_img output,
   version_badge_img output, platforms_badge_img output]

/-! ## Helper lemmas -/

/-- Counting the non-draft entries is the same as discarding the draft ones
from the total. -/
lemma length_filter_nondraft (l : List PullRequest) :
    (l.filter (fun pr => !(pr.draft.getD false))).length
      = l.length - (l.filter (fun pr => pr.draft.getD false)).length := by
  induction l with
  | nil => simp
  | cons a t ih =>
    have hle := List.length_filter_le (fun pr => pr.draft.getD false) t
    cases h : a.draft.getD false
    · simp [List.filter_cons, h, ih]
      omega
    · simp [List.filter_cons, h, ih]

/-- Membership after one `by_feedstock[f].add(o)` step. -/
lemma mem_addOutput (m : String → Option (List String)) (f o x y : String) :
    y ∈ (addOutput m f o x).getD [] ↔ (x = f ∧ y = o) ∨ y ∈ (m x).getD [] := by
  unfold addOutput
  by_cases hx : x = f
  · subst hx
    simp only [if_pos rfl, Option.getD_some]
    by_cases ho : o ∈ (m x).getD []
    · simp only [if_pos ho, true_and]
      exact ⟨fun h => Or.inr h, fun h => h.elim (fun e => e ▸ ho) id⟩
    · simp [if_neg ho, List.mem_append, or_comm]
  · simp [hx]

/-- Membership after the inner loop over the feedstocks owning one output. -/
lemma mem_innerFold (fs : List String) (out : String)
    (m : String → Option (List String)) (x y : String) :
    y ∈ ((fs.foldl (fun m f => addOutput m f out) m) x).getD [] ↔
      (x ∈ fs ∧ y = out) ∨ y ∈ (m x).getD [] := by
  induction fs generalizing m with
  | nil => simp
  | cons f t ih =>
    simp only [List.foldl_cons, ih, mem_addOutput, List.mem_cons]
    tauto

/-- Membership after the whole inversion fold, over any starting mapping. -/
lemma mem_outerFold (doc : List (String × List String))
    (m : String → Option (List String)) (x y : String) :
    y ∈ ((doc.foldl (fun m p => p.2.foldl (fun m f => addOutput m f p.1) m) m) x).getD [] ↔
      (∃ fs, (y, fs) ∈ doc ∧ x ∈ fs) ∨ y ∈ (m x).getD [] := by
  induction doc generalizing m with
  | nil => simp
  | cons p t ih =>
    obtain ⟨po, pfs⟩ := p
    simp only [List.foldl_cons, ih, mem_innerFold, List.mem_cons]
    constructor
    · rintro (⟨fs, hfs, hx⟩ | (⟨hx, hy⟩ | hm))
      · exact Or.inl ⟨fs, Or.inr hfs, hx⟩
      · exact Or.inl ⟨pfs, Or.inl (by simp [hy]), hx⟩
      · exact Or.inr hm
    · rintro (⟨fs, he | ht, hx⟩ | hm)
      · obtain ⟨h1, h2⟩ := Prod.mk.injEq .. ▸ he
        exact Or.inr (Or.inl ⟨h2 ▸ hx, h1⟩)
      · exact Or.inl ⟨fs, ht, hx⟩
      · exact Or.inr (Or.inr hm)

/-- Transitivity of the substring relation. -/
lemma strInfix_trans {a b c : String} (h₁ : strInfix a b) (h₂ : strInfix b c) :
    strInfix a c := by
  obtain ⟨p₁, s₁, rfl⟩ := h₁
  obtain ⟨p₂, s₂, rfl⟩ := h₂
  exact ⟨p₂ ++ p₁, s₁ ++ s₂, by simp [String.append_assoc]⟩

/-- The image URL is a substring of the Markdown badge built around it. -/
lemma strInfix_img_mdBadge (alt img link : String) :
    strInfix img (mdBadge alt img link) :=
  ⟨"[![" ++ alt ++ "](", ")](" ++ link ++ ")", by simp [mdBadge, String.append_assoc]⟩

/-- Every one of the five badges is a substring of the row it is emitted in. -/
lemma strInfix_badges_toolRow (f o : String) :
    strInfix (feedstock_badge f o) (toolRow f o) ∧
    strInfix (recipe_badge f o) (toolRow f o) ∧
    strInfix (downloads_badge o) (toolRow f o) ∧
    strInfix (version_badge o) (toolRow f o) ∧
    strInfix (platforms_badge o) (toolRow f o) := by
  refine ⟨⟨"| ",
      " | " ++ recipe_badge f o ++ " | " ++ downloads_badge o ++ " | " ++
        version_badge o ++ " | " ++ platforms_badge o ++ " | " ++ pr_count_link f ++ " |", ?_⟩,
    ⟨"| " ++ feedstock_badge f o ++ " | ",
      " | " ++ downloads_badge o ++ " | " ++ version_badge o ++ " | " ++
        platforms_badge o ++ " | " ++ pr_count_link f ++ " |", ?_⟩,
    ⟨"| " ++ feedstock_badge f o ++ " | " ++ recipe_badge f o ++ " | ",
      " | " ++ version_badge o ++ " | " ++ platforms_badge o ++ " | " ++
        pr_count_link f ++ " |", ?_⟩,
    ⟨"| " ++ feedstock_badge f o ++ " | " ++ recipe_badge f o ++ " | " ++
        downloads_badge o ++ " | ",
      " | " ++ platforms_badge o ++ " | " ++ pr_count_link f ++ " |", ?_⟩,
    ⟨"| " ++ feedstock_badge f o ++ " | " ++ recipe_badge f o ++ " | " ++
        downloads_badge o ++ " | " ++ version_badge o ++ " | ",
      " | " ++ pr_count_link f ++ " |", ?_⟩⟩ <;>
    simp [toolRow, String.append_assoc]

/-- When every tool is a key of the mapping, the extension loop succeeds and
yields, for each tool in turn, one row per sorted output. -/
lemma extendRows_eq (fo : String → Option (List String)) (l : List String)
    (h : ∀ t ∈ l, (fo t).isSome) :
    extendRows fo l = some (l.flatMap
      (fun t => (((fo t).getD []).mergeSort (fun a b => a ≤ b)).map (toolRow t))) := by
  induction l with
  | nil => rfl
  | cons t ts ih =>
    obtain ⟨outs, houts⟩ := Option.isSome_iff_exists.mp (h t (List.mem_cons_self t ts))
    have ih' := ih (fun x hx => h x (List.mem_cons_of_mem _ hx))
    simp [extendRows, generate_tool_row, houts, ih', List.flatMap_cons]

/-! ## Claim theorems -/

/-- C8: the remote mapping fetcher never raises.  For every outcome of the
HTTP GET, `load_feedstock_outputs` either returns the parsed document or
(printing a diagnostic) returns the empty mapping. -/
theorem load_feedstock_outputs_never_raises (r : OutputsFetch) :
    (∃ doc, outputsRequest r = .ok doc ∧ load_feedstock_outputs r = doc) ∨
    (∃ e, outputsRequest r = .error e ∧ load_feedstock_outputs r = []) := by
  cases r <;> simp [outputsRequest, load_feedstock_outputs]

/-- C3: on a successful API response, `get_open_prs_count` returns the number
of entries whose draft flag is false, i.e. the total number of entries minus
the draft ones: draft pull requests are always excluded from the count. -/
theorem count_excludes_draft_prs (pulls : List PullRequest) :
    get_open_prs_count (.ok pulls) =
      .ok (.inr (pulls.length - (pulls.filter (fun pr => pr.draft.getD false)).length)) := by
  simp only [get_open_prs_count, length_filter_nondraft]

/-- C10: a pull-request object lacking the draft field altogether is treated
as non-draft and is included in the returned count. -/
theorem missing_draft_field_counted (pr : PullRequest) (pulls : List PullRequest)
    (h : pr.draft = none) :
    ∃ n, get_open_prs_count (.ok pulls) = .ok (.inr n) ∧
      get_open_prs_count (.ok (pr :: pulls)) = .ok (.inr (n + 1)) := by
  refine ⟨(pulls.filter (fun q : PullRequest => !(q.draft.getD false))).length, rfl, ?_⟩
  simp [get_open_prs_count, List.filter_cons, h]

/-- Witness for C10 at the concrete input of a single draft-less object. -/
theorem missing_draft_field_counted_witness :
    ∃ n, get_open_prs_count (.ok []) = .ok (.inr n) ∧
      get_open_prs_count (.ok [⟨none⟩]) = .ok (.inr (n + 1)) :=
  missing_draft_field_counted ⟨none⟩ [] rfl

/-- C6: the remote document (output name to owning feedstocks) is inverted
into the feedstock-to-outputs mapping: an output `o` is among the resolved
outputs of feedstock `f` exactly when `f` occurs in the document's list of
owners of `o`. -/
theorem buildByFeedstock_inverts_document (doc : List (String × List String))
    (f o : String) :
    o ∈ (buildByFeedstock doc f).getD [] ↔ ∃ fs, (o, fs) ∈ doc ∧ f ∈ fs := by
  simp [buildByFeedstock, mem_outerFold]

/-- C5: the badge image URLs emitted in a row are deterministic functions of
the output name alone.  For any two row generations that resolve the same
output — under possibly different feedstock names — the same five badge
image URLs, computed from the output name only, occur in both rows. -/
theorem badge_urls_depend_only_on_output (f₁ f₂ o : String) :
    ∀ u ∈ badge_img_urls o, strInfix u (toolRow f₁ o) ∧ strInfix u (toolRow f₂ o) := by
  intro u hu
  have h₁ := strInfix_badges_toolRow f₁ o
  have h₂ := strInfix_badges_toolRow f₂ o
  simp only [badge_img_urls, List.mem_cons, List.mem_singleton] at hu
  rcases hu with rfl | rfl | rfl | rfl | rfl | h
  · exact ⟨strInfix_trans (strInfix_img_mdBadge ..) h₁.1,
           strInfix_trans (strInfix_img_mdBadge ..) h₂.1⟩
  · exact ⟨strInfix_trans (strInfix_img_mdBadge ..) h₁.2.1,
           strInfix_trans (strInfix_img_mdBadge ..) h₂.2.1⟩
  · exact ⟨strInfix_trans (strInfix_img_mdBadge ..) h₁.2.2.1,
           strInfix_trans (strInfix_img_mdBadge ..) h₂.2.2.1⟩
  · exact ⟨strInfix_trans (strInfix_img_mdBadge ..) h₁.2.2.2.1,
           strInfix_trans (strInfix_img_mdBadge ..) h₂.2.2.2.1⟩
  · exact ⟨strInfix_trans (strInfix_img_mdBadge ..) h₁.2.2.2.2,
           strInfix_trans (strInfix_img_mdBadge ..) h₂.2.2.2.2⟩
  · cases h

/-- Witness for C5 at output "pythia8" and two different feedstock names. -/
theorem badge_urls_depend_only_on_output_witness :
    strInfix (downloads_badge_img "pythia8") (toolRow "alpha" "pythia8") ∧
    strInfix (downloads_badge_img "pythia8") (toolRow "beta" "pythia8") :=
  badge_urls_depend_only_on_output "alpha" "beta" "pythia8"
    (downloads_badge_img "pythia8") (by simp [badge_img_urls])

/-- C9: the Open PRs column of every row yielded by `generate_tool_row` is
the empty string: the count used is the constant `0` (the live fetcher is
not invoked) and a count of `0` renders as an empty cell, not a link. -/
theorem open_prs_cell_always_empty (fo : String → Option (List String))
    (f : String) (rows : List String)
    (h : generate_tool_row fo f = some rows) :
    pr_count = 0 ∧ pr_count_link f = "" ∧
    ∀ r ∈ rows, ∃ p, r = p ++ " | " ++ pr_count_link f ++ " |" := by
  refine ⟨rfl, rfl, ?_⟩
  unfold generate_tool_row at h
  cases hf : fo f with
  | none => rw [hf] at h; cases h
  | some outs =>
    rw [hf] at h
    obtain rfl : (outs.mergeSort (fun a b => a ≤ b)).map (toolRow f) = rows :=
      Option.some.injEq .. ▸ h
    intro r hr
    obtain ⟨o, _, rfl⟩ := List.mem_map.mp hr
    exact ⟨"| " ++ feedstock_badge f o ++ " | " ++ recipe_badge f o ++ " | " ++
      downloads_badge o ++ " | " ++ version_badge o ++ " | " ++ platforms_badge o, rfl⟩

/-- Witness for C9 at a concrete one-tool mapping. -/
theorem open_prs_cell_always_empty_witness :
    pr_count = 0 ∧ pr_count_link "pythia8" = "" ∧
    ∀ r ∈ [toolRow "pythia8" "pythia8"],
      ∃ p, r = p ++ " | " ++ pr_count_link "pythia8" ++ " |" :=
  open_prs_cell_always_empty (buildByFeedstock [("pythia8", ["pythia8"])])
    "pythia8" [toolRow "pythia8" "pythia8"]
    (by
      have h : buildByFeedstock [("pythia8", ["pythia8"])] "pythia8" = some ["pythia8"] := by
        decide
      simp [generate_tool_row, h])

/-- C2 counterexample: the feedstock "pythia8" resolves to its single output
while the PR fetch fails, so the fetcher returns the sentinel "ERROR"; yet
the rendered row's Open PRs cell — the `pr_count_link` slot of the row — is
the empty string, not the sentinel, because row generation never invokes the
fetcher. -/
theorem pr_fetch_failure_no_sentinel_in_row :
    get_open_prs_count (.httpError "HTTP 403 rate limit") = .ok (.inl "ERROR") ∧
    generate_tool_row (buildByFeedstock [("pythia8", ["pythia8"])]) "pythia8" =
      some [toolRow "pythia8" "pythia8"] ∧
    (∃ p, toolRow "pythia8" "pythia8" =
        p ++ " | " ++ pr_count_link "pythia8" ++ " |") ∧
    pr_count_link "pythia8" = "" ∧
    pr_count_link "pythia8" ≠ "ERROR" ∧ pr_count_link "pythia8" ≠ "N/A" := by
  refine ⟨rfl, ?_,
    ⟨"| " ++ feedstock_badge "pythia8" "pythia8" ++ " | " ++
      recipe_badge "pythia8" "pythia8" ++ " | " ++ downloads_badge "pythia8" ++
      " | " ++ version_badge "pythia8" ++ " | " ++ platforms_badge "pythia8", rfl⟩,
    rfl, by decide, by decide⟩
  have h : buildByFeedstock [("pythia8", ["pythia8"])] "pythia8" = some ["pythia8"] := by
    decide
  simp [generate_tool_row, h]

/-- C2 amended: on any failing PR fetch the fetcher does return the sentinel
"ERROR"; however, row generation never invokes the fetcher, so the Open PRs
cell of every rendered row is the empty string — independent of any fetch
outcome — and the rows of all tools alike are unaffected by fetch failures. -/
theorem pr_sentinel_unused_rows_empty (e f o : String) :
    get_open_prs_count (.httpError e) = .ok (.inl "ERROR") ∧
    get_open_prs_count (.netError e) = .ok (.inl "ERROR") ∧
    pr_count_link f = "" ∧
    ∃ p, toolRow f o = p ++ " | " ++ pr_count_link f ++ " |" :=
  ⟨rfl, rfl, rfl,
    ⟨"| " ++ feedstock_badge f o ++ " | " ++ recipe_badge f o ++ " | " ++
      downloads_badge o ++ " | " ++ version_badge o ++ " | " ++ platforms_badge o, rfl⟩⟩

/-- C1: evaluation at the failing input.  When the remote fetch fails, the
mapping is empty, and row generation for the configured tool "pythia8" then
raises `KeyError` (modelled by `none`) from `FEEDSTOCK_OUTPUTS[feedstock_name]`
instead of falling back to the one-element list `["pythia8"]`; the exception
escapes through the section renderer. -/
theorem fetch_failure_crashes_row_generation :
    load_feedstock_outputs (.netError "connection refused") = [] ∧
    buildByFeedstock (load_feedstock_outputs (.netError "connection refused")) "pythia8"
      = none ∧
    generate_tool_row
      (buildByFeedstock (load_feedstock_outputs (.netError "connection refused")))
      "pythia8" = none ∧
    process_tools_section
      (buildByFeedstock (load_feedstock_outputs (.netError "connection refused")))
      "Generators" ["pythia8"] = none := by
  refine ⟨rfl, rfl, rfl, ?_⟩
  simp [process_tools_section, extendRows, generate_tool_row, buildByFeedstock,
    load_feedstock_outputs, outputsRequest]

/-- C4: when every tool of a section is a key of the mapping, the section
renders exactly one table row per resolved output of each tool: its body is
the concatenation, over the tools sorted by name, of one row per output
sorted by name, and its length is the total number of resolved outputs. -/
theorem section_one_row_per_output_sorted (fo : String → Option (List String))
    (title : String) (tools : List String)
    (hk : ∀ t ∈ tools, (fo t).isSome) :
    ∃ body,
      process_tools_section fo title tools = some (sectionHeader title ++ body ++ [""]) ∧
      body = (tools.mergeSort (fun a b => a ≤ b)).flatMap
        (fun t => (((fo t).getD []).mergeSort (fun a b => a ≤ b)).map (toolRow t)) ∧
      List.Sorted (fun a b => a ≤ b) (tools.mergeSort (fun a b => a ≤ b)) ∧
      (tools.mergeSort (fun a b => a ≤ b)).Perm tools ∧
      (∀ t, List.Sorted (fun a b => a ≤ b)
        (((fo t).getD []).mergeSort (fun a b => a ≤ b))) ∧
      body.length = (tools.map (fun t => ((fo t).getD []).length)).sum := by
  have hk' : ∀ t ∈ tools.mergeSort (fun a b => a ≤ b), (fo t).isSome :=
    fun t ht => hk t (List.mem_mergeSort.mp ht)
  have hext := extendRows_eq fo (tools.mergeSort (fun a b => a ≤ b)) hk'
  refine ⟨_, ?_, rfl, List.sorted_mergeSort' tools, List.mergeSort_perm tools _,
    fun t => List.sorted_mergeSort' _, ?_⟩
  · unfold process_tools_section
    rw [hext]
    rfl
  · rw [List.length_flatMap]
    have hmap : List.map
        (List.length ∘ fun t => (((fo t).getD []).mergeSort (fun a b => a ≤ b)).map (toolRow t))
        (tools.mergeSort (fun a b => a ≤ b)) =
        List.map (fun t => ((fo t).getD []).length) (tools.mergeSort (fun a b => a ≤ b)) := by
      simp [Function.comp_def]
    rw [hmap]
    exact ((List.mergeSort_perm tools _).map (fun t => ((fo t).getD []).length)).sum_eq

/-- Witness for C4 at a one-tool section over a concrete mapping. -/
theorem section_one_row_per_output_sorted_witness :
    ∃ body,
      process_tools_section (buildByFeedstock [("pythia8", ["pythia8"])])
          "Generators" ["pythia8"] = some (sectionHeader "Generators" ++ body ++ [""]) ∧
      body = (["pythia8"].mergeSort (fun a b => a ≤ b)).flatMap
        (fun t => (((buildByFeedstock [("pythia8", ["pythia8"])] t).getD []).mergeSort
          (fun a b => a ≤ b)).map (toolRow t)) ∧
      List.Sorted (fun a b => a ≤ b) (["pythia8"].mergeSort (fun a b => a ≤ b)) ∧
      (["pythia8"].mergeSort (fun a b => a ≤ b)).Perm ["pythia8"] ∧
      (∀ t, List.Sorted (fun a b => a ≤ b)
        (((buildByFeedstock [("pythia8", ["pythia8"])] t).getD []).mergeSort
          (fun a b => a ≤ b))) ∧
      body.length = (["pythia8"].map
        (fun t => ((buildByFeedstock [("pythia8", ["pythia8"])] t).getD []).length)).sum :=
  section_one_row_per_output_sorted (buildByFeedstock [("pythia8", ["pythia8"])])
    "Generators" ["pythia8"] (by decide)

/-- C7: document assembly is deterministic given the same config and the same
remote outputs mapping: two assemblies differing only in the clock value agree
on every line except the final timestamp line. -/
theorem assembly_deterministic_modulo_timestamp (doc : List (String × List String))
    (data : Config) (t₁ t₂ : String) (l₁ : List String)
    (h : assembleLines (buildByFeedstock doc) data t₁ = some l₁) :
    ∃ l₂, assembleLines (buildByFeedstock doc) data t₂ = some l₂ ∧
      l₁.dropLast = l₂.dropLast ∧
      l₁.getLast? = some (timestampLine t₁) ∧
      l₂.getLast? = some (timestampLine t₂) := by
  unfold assembleLines at h ⊢
  cases hs : renderSections (buildByFeedstock doc) data with
  | none => rw [hs] at h; cases h
  | some s =>
    rw [hs] at h
    simp only [Option.map_some'] at h
    have hl := Option.some.inj h
    subst hl
    refine ⟨_, rfl, ?_, ?_, ?_⟩
    · simp [List.dropLast_concat]
    · simp [List.getLast?_concat]
    · simp [List.getLast?_concat]

/-- Witness for C7 at the empty config and empty mapping, with two distinct
clock values. -/
theorem assembly_deterministic_modulo_timestamp_witness :
    ∃ l₂, assembleLines (buildByFeedstock []) [] "2025-02-01 00:00:00 UTC" = some l₂ ∧
      (headerLines ++ [] ++ footerLines ++
        [timestampLine "2025-01-01 00:00:00 UTC"]).dropLast = l₂.dropLast ∧
      (headerLines ++ [] ++ footerLines ++
        [timestampLine "2025-01-01 00:00:00 UTC"]).getLast? =
          some (timestampLine "2025-01-01 00:00:00 UTC") ∧
      l₂.getLast? = some (timestampLine "2025-02-01 00:00:00 UTC") :=
  assembly_deterministic_modulo_timestamp [] [] "2025-01-01 00:00:00 UTC"
    "2025-02-01 00:00:00 UTC"
    (headerLines ++ [] ++ footerLines ++ [timestampLine "2025-01-01 00:00:00 UTC"]) rfl

end UpdateReadme
